import Mathlib

/-!
Shallow embedding of the openclaw chat-session controller
(`ui/src/ui/controllers/chat.ts`) and its app layer (`ui/src/ui/app-chat.ts`).

JavaScript values are modelled as follows: `undefined`/absent optional fields
become `Option`; `string | null` becomes `Option String`; arrays become lists;
`Record<string, ...>` session maps become association lists preserving JS
object insertion-order semantics (updating an existing key keeps its position,
a new key is appended); `localStorage` contents become `Option` of the parsed
store (a `JSON.parse` round trip that drops `undefined`-valued properties is
captured by `Option` fields being `none`).  Remote `request` calls are recorded
in an explicit call trace and their outcomes are supplied by an environment
argument, so every function is a pure state transformer.
-/

set_option maxHeartbeats 1000000

namespace OpenclawChat

/-- `String.prototype.trim`: strip leading and trailing whitespace
(char-list implementation, so it evaluates inside the kernel). -/
def jsTrim (s : String) : String :=
  (((s.toList.dropWhile Char.isWhitespace).reverse.dropWhile Char.isWhitespace).reverse).asString

/-- `String.prototype.toLowerCase` (ASCII case folding). -/
def jsToLower (s : String) : String :=
  (s.toList.map Char.toLower).asString

/-- `String.prototype.startsWith`. -/
def jsStartsWith (s p : String) : Bool :=
  p.toList.isPrefixOf s.toList

/-- Split a character list at `'\n'`. -/
def splitCharsOnNewline : List Char → List (List Char)
  | [] => [[]]
  | c :: rest =>
    let r := splitCharsOnNewline rest
    if c = '\n' then [] :: r
    else (c :: r.headD []) :: r.tail

/-- `String.prototype.split("\n")` (each part subsequently trimmed by the
callers, which also strips the `\r` of a `\r\n` terminator, matching the
source's `\r?\n` split). -/
def jsSplitNewline (s : String) : List String :=
  (splitCharsOnNewline s.toList).map List.asString

/-- JS truthiness of a `string | null | undefined` value: truthy iff present and
non-empty. -/
def jsTruthy : Option String → Bool
  | some s => s ≠ ""
  | none => false

/-- `Array.prototype.slice(-n)`: the last `n` elements (all of them when the
list is shorter). -/
def takeRight (l : List α) (n : Nat) : List α :=
  l.drop (l.length - n)

/-! ## Data model (`ui-types.ts` and the stored-state types of `chat.ts`) -/

/-- `ChatAttachment` from `ui-types.ts`. -/
structure ChatAttachment where
  id : String
  kind : Option String := none
  dataUrl : String
  previewUrl : Option String := none
  mimeType : String
  fileName : Option String := none
  source : Option String := none
  durationMs : Option Int := none
  transcript : Option String := none
  transcriptParts : Option (List String) := none
  persistedNoteId : Option String := none
  deriving Repr, DecidableEq

/-- `StoredChatAttachment` from `chat.ts`. -/
structure StoredChatAttachment where
  id : String
  kind : Option String := none
  dataUrl : String
  mimeType : String
  fileName : Option String := none
  source : Option String := none
  durationMs : Option Int := none
  transcript : Option String := none
  transcriptParts : Option (List String) := none
  persistedNoteId : Option String := none
  deriving Repr, DecidableEq

/-- `StoredLocalVoiceNote` from `chat.ts`. -/
structure StoredLocalVoiceNote where
  id : String
  timestamp : Int
  attachment : StoredChatAttachment
  deriving Repr, DecidableEq

/-- `StoredSessionChatState` from `chat.ts` (all three fields optional). -/
structure StoredSessionChatState where
  draft : Option String := none
  attachments : Option (List StoredChatAttachment) := none
  voiceNotes : Option (List StoredLocalVoiceNote) := none
  deriving Repr, DecidableEq

/-- `StoredChatStateStore` from `chat.ts`; `sessions` is an insertion-ordered
association list modelling the JS object. -/
structure StoredChatStateStore where
  version : Nat
  sessions : List (String × StoredSessionChatState)
  deriving Repr, DecidableEq

/-- `__openclaw` marker object carried on locally-originated messages. -/
structure MarkerVal where
  kind : String
  id : Option String
  deriving Repr, DecidableEq

/-- A message content block (`Record<string, unknown>`), with the fields the
controller reads or writes; absent properties are `none`. -/
structure ContentBlock where
  type : String
  text : Option String := none
  sourceMediaType : Option String := none
  sourceData : Option String := none
  mimeType : Option String := none
  fileName : Option String := none
  url : Option String := none
  transcript : Option String := none
  transcriptParts : Option (List String) := none
  persistedNoteId : Option String := none
  deriving Repr, DecidableEq

/-- An entry of a message `content` array: either a non-object JS value or a
content-block object. -/
inductive BlockVal
  | prim
  | blk (b : ContentBlock)
  deriving Repr, DecidableEq

/-- A chat-message object with the properties the controller inspects.
`content = none` models an absent or non-array `content` property. -/
structure MsgObj where
  role : Option String := none
  content : Option (List BlockVal) := none
  timestamp : Option Int := none
  marker : Option MarkerVal := none
  deriving Repr, DecidableEq

/-- An `unknown` history entry: a non-object JS value or a message object. -/
inductive MsgVal
  | prim
  | obj (m : MsgObj)
  deriving Repr, DecidableEq

/-- `ChatQueueItem` from `ui-types.ts`. -/
structure ChatQueueItem where
  id : String
  text : String
  createdAt : Int
  attachments : Option (List ChatAttachment) := none
  refreshSessions : Bool := false
  deriving Repr, DecidableEq

/-- The controller/host state.  In the app the controller's `ChatState` and the
`ChatHost` are the same object (`OpenClawApp`), so the queue fields live here
too; the controller functions never touch them.  `hasClient` models
`client !== null`. -/
structure ChatState where
  hasClient : Bool
  connected : Bool
  sessionKey : String
  chatLoading : Bool := false
  chatMessages : List MsgVal := []
  chatThinkingLevel : Option String := none
  chatSending : Bool := false
  chatMessage : String := ""
  chatAttachments : List ChatAttachment := []
  chatRunId : Option String := none
  chatStream : Option String := none
  chatStreamStartedAt : Option Int := none
  lastError : Option String := none
  chatQueue : List ChatQueueItem := []
  refreshSessionsAfterChat : List String := []
  deriving Repr, DecidableEq

/-- Streaming push-event states. -/
inductive EvState
  | delta | final | aborted | error
  deriving Repr, DecidableEq

/-- `ChatEventPayload` from `chat.ts`. -/
structure ChatEventPayload where
  runId : String
  sessionKey : String
  state : EvState
  message : Option MsgVal := none
  errorMessage : Option String := none
  deriving Repr, DecidableEq

/-! ## Association-list helpers for the sessions map -/

/-- `store.sessions[key]` lookup. -/
def lookupEntry (l : List (String × StoredSessionChatState)) (k : String) :
    Option StoredSessionChatState :=
  (l.find? fun kv => kv.1 = k).map (·.2)

/-- `store.sessions[key] = v`: replace in place, else append (JS object
insertion-order semantics). -/
def setEntry (l : List (String × StoredSessionChatState)) (k : String)
    (v : StoredSessionChatState) : List (String × StoredSessionChatState) :=
  match l with
  | [] => [(k, v)]
  | kv :: rest => if kv.1 = k then (k, v) :: rest else kv :: setEntry rest k v

/-- `delete store.sessions[key]`. -/
def eraseEntry (l : List (String × StoredSessionChatState)) (k : String) :
    List (String × StoredSessionChatState) :=
  match l with
  | [] => []
  | kv :: rest => if kv.1 = k then rest else kv :: eraseEntry rest k

/-! ## Pure helpers from `chat.ts` -/

/-- `isVoiceNoteAttachment`. -/
def isVoiceNoteAttachment (attachment : ChatAttachment) : Bool :=
  attachment.kind = some "voice-note" || jsStartsWith (jsToLower attachment.mimeType) "audio/"

/-- `normalizeTranscript`. -/
def normalizeTranscript (attachment : ChatAttachment) : String :=
  match attachment.transcript with
  | some t => jsTrim t
  | none =>
    match attachment.transcriptParts with
    | none => ""
    | some parts => String.intercalate "\n" ((parts.map jsTrim).filter (· ≠ ""))

/-- `splitTranscriptParts`.  The source splits on the regex `\r?\n` and then
trims each part; splitting on `"\n"` and trimming (which strips a trailing
`\r`) produces the same parts. -/
def splitTranscriptParts (transcript : String) : List String :=
  ((jsSplitNewline transcript).map jsTrim).filter (· ≠ "")

/-- `dataUrlToBase64`: the regex `^data:([^;]+);base64,(.+)$` where `.` does
not match `\n`/`\r`. -/
def dataUrlToBase64 (dataUrl : String) : Option (String × String) :=
  if jsStartsWith dataUrl "data:" then
    let rest := (dataUrl.toList.drop 5).asString
    let mimeType := (rest.toList.takeWhile (· ≠ ';')).asString
    if mimeType ≠ "" ∧ jsStartsWith (rest.toList.drop mimeType.length).asString ";base64," then
      let content := (rest.toList.drop (mimeType.length + 8)).asString
      if content ≠ "" ∧ content.toList.all (fun c => c ≠ '\n' ∧ c ≠ '\r') then
        some (mimeType, content)
      else none
    else none
  else none

/-- `toStoredChatAttachment`. -/
def toStoredChatAttachment (attachment : ChatAttachment) : Option StoredChatAttachment :=
  let i := jsTrim attachment.id
  if i = "" then none
  else
    let dataUrl := jsTrim attachment.dataUrl
    let mimeType := jsTrim attachment.mimeType
    if dataUrl = "" ∨ mimeType = "" then none
    else
      let transcript := normalizeTranscript attachment
      some
        { id := i
          kind := some (if isVoiceNoteAttachment attachment then "voice-note" else "image")
          dataUrl := dataUrl
          mimeType := mimeType
          fileName := attachment.fileName.bind fun f =>
            if jsTrim f ≠ "" then some (jsTrim f) else none
          source := attachment.source.bind fun s =>
            if s = "record" ∨ s = "upload" then some s else none
          durationMs := attachment.durationMs.map fun d => max 0 d
          transcript := if transcript ≠ "" then some transcript else none
          transcriptParts := if transcript ≠ "" then some (splitTranscriptParts transcript) else none
          persistedNoteId := attachment.persistedNoteId.bind fun p =>
            if jsTrim p ≠ "" then some (jsTrim p) else none }

/-- `getLocalVoiceNoteMarkerId`. -/
def getLocalVoiceNoteMarkerId (message : MsgVal) : Option String :=
  match message with
  | .prim => none
  | .obj m =>
    match m.marker with
    | none => none
    | some marker =>
      if marker.kind ≠ "local-voice-note" then none
      else
        match marker.id with
        | some i => if jsTrim i ≠ "" then some (jsTrim i) else none
        | none => none

/-- `buildVoiceNoteContentBlock`. -/
def buildVoiceNoteContentBlock (attachment : ChatAttachment)
    (optsPersistedNoteId : Option String := none) (includePreviewUrl : Bool := false) :
    ContentBlock :=
  let transcript := normalizeTranscript attachment
  let fromOpts := match optsPersistedNoteId with
    | some p => jsTrim p
    | none => ""
  let persistedNoteId :=
    if fromOpts ≠ "" then fromOpts
    else match attachment.persistedNoteId with
      | some p => jsTrim p
      | none => ""
  { type := "voice_note"
    sourceMediaType := some attachment.mimeType
    sourceData := some attachment.dataUrl
    mimeType := some attachment.mimeType
    fileName := attachment.fileName
    url :=
      if includePreviewUrl ∧ jsTruthy attachment.previewUrl then attachment.previewUrl else none
    transcript := if transcript ≠ "" then some transcript else none
    transcriptParts := if transcript ≠ "" then some (splitTranscriptParts transcript) else none
    persistedNoteId := if persistedNoteId ≠ "" then some persistedNoteId else none }

/-- `buildLocalVoiceNoteMessage`. -/
def buildLocalVoiceNoteMessage (attachment : ChatAttachment) (timestamp : Int) : MsgVal :=
  .obj
    { role := some "user"
      content := some [.blk (buildVoiceNoteContentBlock attachment none true)]
      timestamp := some timestamp
      marker := some { kind := "local-voice-note", id := some attachment.id } }

/-- `updateLocalVoiceMessageInMemory`. -/
def updateLocalVoiceMessageInMemory (messages : List MsgVal) (attachment : ChatAttachment)
    (timestamp : Int) : List MsgVal :=
  let markerId := attachment.id
  let nextMessage := buildLocalVoiceNoteMessage attachment timestamp
  let next := messages.map fun message =>
    if getLocalVoiceNoteMarkerId message = some markerId then nextMessage else message
  if messages.any fun message => getLocalVoiceNoteMarkerId message = some markerId then next
  else next ++ [nextMessage]

/-- `patchLocalVoiceMessagePersistedId`. -/
def patchLocalVoiceMessagePersistedId (message : MsgVal) (attachmentId : String)
    (persistedNoteId : String) : MsgVal :=
  if getLocalVoiceNoteMarkerId message ≠ some attachmentId then message
  else
    match message with
    | .prim => message
    | .obj m =>
      match m.content with
      | none => message
      | some content =>
        .obj
          { m with
            content := some (content.map fun entry =>
              match entry with
              | .prim => entry
              | .blk b =>
                if jsToLower b.type ≠ "voice_note" ∧ jsToLower b.type ≠ "audio" then entry
                else .blk { b with persistedNoteId := some persistedNoteId }) }

/-! ## History merge (`mergeLocalVoiceNoteMessages`) -/

/-- Marker ids carried by a history (the contents of the `seen` set after the
first loop of `mergeLocalVoiceNoteMessages`). -/
def markerIds (messages : List MsgVal) : List String :=
  messages.filterMap getLocalVoiceNoteMarkerId

/-- The second loop of `mergeLocalVoiceNoteMessages`: append each local message
whose marker id is new, threading the `seen` set. -/
def mergeGo (seen : List String) (merged : List MsgVal) : List MsgVal → List MsgVal
  | [] => merged
  | message :: rest =>
    match getLocalVoiceNoteMarkerId message with
    | none => mergeGo seen merged rest
    | some mid =>
      if mid ∈ seen then mergeGo seen merged rest
      else mergeGo (seen ++ [mid]) (merged ++ [message]) rest

/-- `mergeLocalVoiceNoteMessages`. -/
def mergeLocalVoiceNoteMessages (history localVoiceNotes : List MsgVal) : List MsgVal :=
  if localVoiceNotes.isEmpty then history
  else mergeGo (markerIds history) history localVoiceNotes

/-! ## Local cache store (`updateLocalSessionState` and its three callers) -/

/-- `LOCAL_CHAT_STATE_VERSION`. -/
def LOCAL_CHAT_STATE_VERSION : Nat := 1

/-- `LOCAL_CHAT_ATTACHMENTS_LIMIT`. -/
def LOCAL_CHAT_ATTACHMENTS_LIMIT : Nat := 8

/-- `LOCAL_CHAT_VOICE_NOTES_LIMIT`. -/
def LOCAL_CHAT_VOICE_NOTES_LIMIT : Nat := 40

/-- `updateLocalSessionState`: read-modify-write of the persisted store.  A
blank session key leaves the storage untouched; a `null` result of the updater
deletes the entry.  The storage contents are `none` when nothing valid is
persisted. -/
def updateLocalSessionState (sessionKey : String)
    (updater : StoredSessionChatState → Option StoredSessionChatState)
    (storage : Option StoredChatStateStore) : Option StoredChatStateStore :=
  if jsTrim sessionKey = "" then storage
  else
    let store := storage.getD { version := LOCAL_CHAT_STATE_VERSION, sessions := [] }
    let current := (lookupEntry store.sessions sessionKey).getD {}
    match updater current with
    | none => some { store with sessions := eraseEntry store.sessions sessionKey }
    | some next => some { store with sessions := setEntry store.sessions sessionKey next }

/-- `next.draft` is a non-empty string (`typeof draft === "string" &&
draft.length > 0`). -/
def hasDraft (e : StoredSessionChatState) : Bool :=
  match e.draft with
  | some d => d.length > 0
  | none => false

/-- `next.attachments` is a non-empty array. -/
def hasAttachments (e : StoredSessionChatState) : Bool :=
  match e.attachments with
  | some l => l.length > 0
  | none => false

/-- `next.voiceNotes` is a non-empty array. -/
def hasVoiceNotes (e : StoredSessionChatState) : Bool :=
  match e.voiceNotes with
  | some l => l.length > 0
  | none => false

/-- `next.draft`, `next.attachments` and `next.voiceNotes` are all empty or
absent: the conjunction `!hasVoiceNotes && !hasDraft && !hasAttachments`
checked at the end of the `syncChatComposerLocalState` updater. -/
def entryEmpty (e : StoredSessionChatState) : Bool :=
  !hasVoiceNotes e && !hasDraft e && !hasAttachments e

/-- The updater inside `syncChatComposerLocalState`. -/
def syncComposerUpdater (draft : String) (storedAttachments : List StoredChatAttachment)
    (current : StoredSessionChatState) : Option StoredSessionChatState :=
  let next : StoredSessionChatState :=
    { current with
      draft := if draft ≠ "" then some draft else none
      attachments := if storedAttachments.length > 0 then some storedAttachments else none }
  if entryEmpty next then none
  else some next

/-- `syncChatComposerLocalState` (its effect on the persisted store; it does
not change the in-memory state). -/
def syncChatComposerLocalState (state : ChatState) (storage : Option StoredChatStateStore) :
    Option StoredChatStateStore :=
  let draft := state.chatMessage
  let storedAttachments :=
    takeRight (state.chatAttachments.filterMap toStoredChatAttachment) LOCAL_CHAT_ATTACHMENTS_LIMIT
  updateLocalSessionState state.sessionKey (syncComposerUpdater draft storedAttachments) storage

/-- Stable insertion into a timestamp-sorted list (the element goes after all
entries whose timestamp is ≤ its own, matching a stable ascending
`Array.prototype.sort`). -/
def insertByTimestamp (x : StoredLocalVoiceNote) : List StoredLocalVoiceNote →
    List StoredLocalVoiceNote
  | [] => [x]
  | y :: ys => if x.timestamp < y.timestamp then x :: y :: ys else y :: insertByTimestamp x ys

/-- `.sort((a, b) => a.timestamp - b.timestamp)`: a stable ascending sort by
timestamp. -/
def sortByTimestamp (l : List StoredLocalVoiceNote) : List StoredLocalVoiceNote :=
  l.foldl (fun acc x => insertByTimestamp x acc) []

/-- The updater inside `appendLocalVoiceNoteMessage`. -/
def appendVoiceNoteUpdater (attachmentId : String) (timestamp : Int)
    (storedAttachment : StoredChatAttachment) (current : StoredSessionChatState) :
    Option StoredSessionChatState :=
  let voiceNotes := current.voiceNotes.getD []
  let nextVoiceNotes :=
    takeRight
      (sortByTimestamp
        ((voiceNotes.filter fun entry => entry.id ≠ attachmentId) ++
          [{ id := attachmentId, timestamp := timestamp, attachment := storedAttachment }]))
      LOCAL_CHAT_VOICE_NOTES_LIMIT
  some { current with voiceNotes := some nextVoiceNotes }

/-- `appendLocalVoiceNoteMessage`: updates the in-memory history and, when the
attachment snapshots successfully, the persisted voice-note ring. -/
def appendLocalVoiceNoteMessage (state : ChatState) (storage : Option StoredChatStateStore)
    (attachment : ChatAttachment) (timestamp : Int) :
    ChatState × Option StoredChatStateStore :=
  let state' :=
    { state with
      chatMessages := updateLocalVoiceMessageInMemory state.chatMessages attachment timestamp }
  match toStoredChatAttachment attachment with
  | none => (state', storage)
  | some storedAttachment =>
    (state',
      updateLocalSessionState state.sessionKey
        (appendVoiceNoteUpdater attachment.id timestamp storedAttachment) storage)

/-- The updater inside `updateLocalVoiceNotePersistence`. -/
def patchPersistenceUpdater (attachmentId persistedNoteId : String)
    (current : StoredSessionChatState) : Option StoredSessionChatState :=
  some
    { current with
      voiceNotes := current.voiceNotes.map fun voiceNotes =>
        voiceNotes.map fun entry =>
          if entry.id ≠ attachmentId then entry
          else { entry with attachment := { entry.attachment with
                  persistedNoteId := some persistedNoteId } }
      attachments := current.attachments.map fun attachments =>
        attachments.map fun entry =>
          if entry.id = attachmentId then { entry with persistedNoteId := some persistedNoteId }
          else entry }

/-- `updateLocalVoiceNotePersistence`: patches the persisted id into the
in-memory attachments and history and into the cached entry. -/
def updateLocalVoiceNotePersistence (state : ChatState) (storage : Option StoredChatStateStore)
    (attachmentId persistedNoteId : String) : ChatState × Option StoredChatStateStore :=
  let state' :=
    { state with
      chatAttachments := state.chatAttachments.map fun attachment =>
        if attachment.id = attachmentId then
          { attachment with persistedNoteId := some persistedNoteId }
        else attachment
      chatMessages := state.chatMessages.map fun message =>
        patchLocalVoiceMessagePersistedId message attachmentId persistedNoteId }
  (state',
    updateLocalSessionState state.sessionKey
      (patchPersistenceUpdater attachmentId persistedNoteId) storage)

/-! ## Remaining controller functions -/

/-- `buildVoiceNotePromptText`. -/
def buildVoiceNotePromptText (voiceNotes : List ChatAttachment) : String :=
  if voiceNotes.length = 0 then ""
  else
    jsTrim (String.intercalate "\n\n"
      (voiceNotes.enum.map fun iAtt =>
        let index := iAtt.1
        let attachment := iAtt.2
        let label :=
          match attachment.fileName with
          | some f => if jsTrim f ≠ "" then jsTrim f else "Voice note " ++ toString (index + 1)
          | none => "Voice note " ++ toString (index + 1)
        let transcript := normalizeTranscript attachment
        if transcript = "" then "[" ++ label ++ "]"
        else "[" ++ label ++ " transcript]\n" ++ transcript))

/-- `normalizeAbortedAssistantMessage`: a well-formed assistant message (role
`assistant`, array `content`), returned verbatim. -/
def normalizeAbortedAssistantMessage (message : Option MsgVal) : Option MsgObj :=
  match message with
  | none => none
  | some .prim => none
  | some (.obj candidate) =>
    if candidate.role ≠ some "assistant" then none
    else
      match candidate.content with
      | none => none
      | some _ => some candidate

/-- `hasLocalVoiceNoteMessage`. -/
def hasLocalVoiceNoteMessage (messages : List MsgVal) (attachmentId : String) : Bool :=
  messages.any fun message => getLocalVoiceNoteMarkerId message = some attachmentId

/-- The foreign-run guard of `handleChatEvent`:
`payload.runId && state.chatRunId && payload.runId !== state.chatRunId`. -/
def foreignRunGuard (payload : ChatEventPayload) (state : ChatState) : Bool :=
  payload.runId ≠ "" &&
    (match state.chatRunId with
     | some r => r ≠ "" && payload.runId ≠ r
     | none => false)

/-- `handleChatEvent`.  `extract` stands for the external
`extractText` helper (`../chat/message-extract.ts`, not part of this
repository): it may yield a display string for the payload message or a
non-string value (`none`).  `now` is `Date.now()`.  Returns the updated state
paired with the `string | null` result. -/
def handleChatEvent (extract : Option MsgVal → Option String) (now : Int)
    (state : ChatState) (payload? : Option ChatEventPayload) :
    ChatState × Option String :=
  match payload? with
  | none => (state, none)
  | some payload =>
    if payload.sessionKey ≠ state.sessionKey then (state, none)
    else if foreignRunGuard payload state then
      if payload.state = .final then (state, some "final") else (state, none)
    else
      match payload.state with
      | .delta =>
        let state' :=
          match extract payload.message with
          | some next =>
            let current := state.chatStream.getD ""
            if current = "" ∨ next.length ≥ current.length then
              { state with chatStream := some next }
            else state
          | none => state
        (state', some "delta")
      | .final =>
        ({ state with chatStream := none, chatRunId := none, chatStreamStartedAt := none },
          some "final")
      | .aborted =>
        let state' :=
          match normalizeAbortedAssistantMessage payload.message with
          | some normalizedMessage =>
            { state with chatMessages := state.chatMessages ++ [MsgVal.obj normalizedMessage] }
          | none =>
            let streamedText := state.chatStream.getD ""
            if jsTrim streamedText ≠ "" then
              { state with
                chatMessages := state.chatMessages ++
                  [MsgVal.obj
                    { role := some "assistant"
                      content := some [.blk { type := "text", text := some streamedText }]
                      timestamp := some now }] }
            else state
        ({ state' with chatStream := none, chatRunId := none, chatStreamStartedAt := none },
          some "aborted")
      | .error =>
        ({ state with
            chatStream := none
            chatRunId := none
            chatStreamStartedAt := none
            lastError := some (payload.errorMessage.getD "chat error") },
          some "error")

/-! ## Remote calls and environments

The gateway `request` function is out of scope; each issued request is
recorded as a `GatewayCall` and its outcome is supplied by an environment.
-/

/-- A recorded `request` invocation with the parameters the controller sends. -/
inductive GatewayCall
  | voiceNotesSave (sessionKey source : String) (durationMs : Option Int)
      (transcript : Option String) (transcriptParts : Option (List String))
      (audioMimeType : String) (audioFileName : Option String) (audioContent : String)
  | chatSend (sessionKey message : String) (idempotencyKey : String)
      (attachments : Option (List (String × String)))
  | chatAbort (sessionKey : String) (runId : Option String)
  deriving Repr, DecidableEq

/-- `{ note?: { id?: string } }`, the `voice-notes.save` response shape. -/
structure VoiceNotesSaveResult where
  noteId : Option String := none
  deriving Repr, DecidableEq

/-- Whether a recorded call is a `voice-notes.save` request. -/
def GatewayCall.isVoiceNotesSave : GatewayCall → Bool
  | .voiceNotesSave .. => true
  | _ => false

/-- Whether a recorded call is a `chat.send` request. -/
def GatewayCall.isChatSend : GatewayCall → Bool
  | .chatSend .. => true
  | _ => false

/-- Result of `persistVoiceNoteAttachment`: the returned promise (which may
reject), the updated state/storage, the (possibly mutated) attachment object,
and the issued requests. -/
structure PersistOutcome where
  result : Except String (Option String)
  state : ChatState
  storage : Option StoredChatStateStore
  attachment : ChatAttachment
  calls : List GatewayCall

/-- `persistVoiceNoteAttachment`; `saveResult` is the outcome the gateway
would give to the `voice-notes.save` request. -/
def persistVoiceNoteAttachment (saveResult : Except String VoiceNotesSaveResult)
    (state : ChatState) (storage : Option StoredChatStateStore)
    (attachment : ChatAttachment) : PersistOutcome :=
  if ¬ (state.hasClient ∧ state.connected) then
    ⟨.ok none, state, storage, attachment, []⟩
  else
    let existing := jsTrim (attachment.persistedNoteId.getD "")
    if existing ≠ "" then ⟨.ok (some existing), state, storage, attachment, []⟩
    else
      match dataUrlToBase64 attachment.dataUrl with
      | none => ⟨.ok none, state, storage, attachment, []⟩
      | some parsed =>
        let transcript := normalizeTranscript attachment
        let call := GatewayCall.voiceNotesSave state.sessionKey (attachment.source.getD "upload")
          attachment.durationMs
          (if transcript ≠ "" then some transcript else none)
          (if transcript ≠ "" then some (splitTranscriptParts transcript) else none)
          (if parsed.1 ≠ "" then parsed.1 else attachment.mimeType)
          attachment.fileName parsed.2
        match saveResult with
        | .error e => ⟨.error e, state, storage, attachment, [call]⟩
        | .ok result =>
          let persistedId := ((result.noteId.map jsTrim).getD "")
          if persistedId = "" then ⟨.ok none, state, storage, attachment, [call]⟩
          else
            let attachment' := { attachment with persistedNoteId := some persistedId }
            let patched := updateLocalVoiceNotePersistence state storage attachment.id persistedId
            ⟨.ok (some persistedId), patched.1, patched.2, attachment', [call]⟩

/-- Environment for one `sendChatMessage` call: the generated UUID, the two
`Date.now()` readings, the `voice-notes.save` outcome per attachment id, and
the `chat.send` outcome (`String(err)` of the rejection in the error case). -/
structure SendEnv where
  runId : String := ""
  now : Int := 0
  errNow : Int := 0
  saveFor : String → Except String VoiceNotesSaveResult := fun _ => .ok {}
  sendResult : Except String Unit := .ok ()

/-- Result of `sendChatMessage`: the returned run id (or `null`), the updated
state/storage, issued requests, and the number of `console.warn` emissions. -/
structure SendOutcome where
  runId : Option String
  state : ChatState
  storage : Option StoredChatStateStore
  calls : List GatewayCall
  warnings : Nat

/-- Accumulator of the voice-note persist pass inside `sendChatMessage`. -/
structure PersistPass where
  persistedVoiceNoteIds : List (String × String)
  state : ChatState
  storage : Option StoredChatStateStore
  voiceAttachments : List ChatAttachment
  calls : List GatewayCall
  warnings : Nat

/-- `sendChatMessage`.  The persist pass runs under `Promise.all` in the
source; it is modelled with effects applied in attachment-list order (the
deterministic schedule where each save settles in turn). -/
def sendChatMessage (env : SendEnv) (state : ChatState)
    (storage : Option StoredChatStateStore) (message : String)
    (attachments : Option (List ChatAttachment)) : SendOutcome :=
  if ¬ (state.hasClient ∧ state.connected) then ⟨none, state, storage, [], 0⟩
  else
    let msg := jsTrim message
    let allAttachments := attachments.getD []
    let imageAttachments := allAttachments.filter fun a => ¬ isVoiceNoteAttachment a
    let voiceNoteAttachments := allAttachments.filter fun a => isVoiceNoteAttachment a
    let hasImageAttachments := imageAttachments.length > 0
    let hasVoiceNotes := voiceNoteAttachments.length > 0
    if msg = "" ∧ ¬ hasImageAttachments ∧ ¬ hasVoiceNotes then ⟨none, state, storage, [], 0⟩
    else
      let voicePromptText := buildVoiceNotePromptText voiceNoteAttachments
      let outboundMessage := String.intercalate "\n\n" ([msg, voicePromptText].filter (· ≠ ""))
      let now := env.now
      let pass : PersistPass :=
        voiceNoteAttachments.foldl
          (fun pass attachment =>
            let knownId := jsTrim (attachment.persistedNoteId.getD "")
            if knownId ≠ "" then
              { pass with
                persistedVoiceNoteIds := pass.persistedVoiceNoteIds ++ [(attachment.id, knownId)]
                voiceAttachments := pass.voiceAttachments ++ [attachment] }
            else
              let p := persistVoiceNoteAttachment (env.saveFor attachment.id) pass.state
                pass.storage attachment
              match p.result with
              | .error _ =>
                { pass with
                  state := p.state, storage := p.storage
                  voiceAttachments := pass.voiceAttachments ++ [p.attachment]
                  calls := pass.calls ++ p.calls, warnings := pass.warnings + 1 }
              | .ok (some persistedId) =>
                { pass with
                  persistedVoiceNoteIds :=
                    pass.persistedVoiceNoteIds ++ [(attachment.id, persistedId)]
                  state := p.state, storage := p.storage
                  voiceAttachments := pass.voiceAttachments ++ [p.attachment]
                  calls := pass.calls ++ p.calls }
              | .ok none =>
                { pass with
                  state := p.state, storage := p.storage
                  voiceAttachments := pass.voiceAttachments ++ [p.attachment]
                  calls := pass.calls ++ p.calls })
          ⟨[], state, storage, [], [], 0⟩
      let contentBlocks : List ContentBlock :=
        (if msg ≠ "" then [{ type := "text", text := some msg }] else []) ++
        (imageAttachments.map fun att =>
          { type := "image", sourceMediaType := some att.mimeType,
            sourceData := some att.dataUrl }) ++
        ((pass.voiceAttachments.filter fun att =>
            ¬ hasLocalVoiceNoteMessage pass.state.chatMessages att.id).map fun att =>
          buildVoiceNoteContentBlock att
            ((pass.persistedVoiceNoteIds.find? fun kv => kv.1 = att.id).map (·.2)) true)
      let state2 :=
        if contentBlocks.length > 0 then
          { pass.state with
            chatMessages := pass.state.chatMessages ++
              [MsgVal.obj
                { role := some "user", content := some (contentBlocks.map BlockVal.blk),
                  timestamp := some now }] }
        else pass.state
      let state3 :=
        { state2 with
          chatSending := true, lastError := none, chatRunId := some env.runId,
          chatStream := some "", chatStreamStartedAt := some now }
      let apiAttachments :=
        if hasImageAttachments then
          some (imageAttachments.filterMap fun att =>
            (dataUrlToBase64 att.dataUrl).map fun parsed => (parsed.1, parsed.2))
        else none
      let call := GatewayCall.chatSend state.sessionKey outboundMessage env.runId apiAttachments
      match env.sendResult with
      | .ok _ =>
        ⟨some env.runId, { state3 with chatSending := false }, pass.storage,
          pass.calls ++ [call], pass.warnings⟩
      | .error err =>
        ⟨none,
          { state3 with
            chatRunId := none, chatStream := none, chatStreamStartedAt := none,
            lastError := some err
            chatMessages := state3.chatMessages ++
              [MsgVal.obj
                { role := some "assistant"
                  content := some [.blk { type := "text", text := some ("Error: " ++ err) }]
                  timestamp := some env.errNow }]
            chatSending := false },
          pass.storage, pass.calls ++ [call], pass.warnings⟩

/-- `abortChatRun`. -/
def abortChatRun (abortResult : Except String Unit) (state : ChatState) :
    Bool × ChatState × List GatewayCall :=
  if ¬ (state.hasClient ∧ state.connected) then (false, state, [])
  else
    let call := GatewayCall.chatAbort state.sessionKey
      (if jsTruthy state.chatRunId then state.chatRunId else none)
    match abortResult with
    | .ok _ => (true, state, [call])
    | .error e => (false, { state with lastError := some e }, [call])

/-! ## App layer (`app-chat.ts`) -/

/-- `isChatBusy`. -/
def isChatBusy (host : ChatState) : Bool :=
  host.chatSending || jsTruthy host.chatRunId

/-- `isChatStopCommand`. -/
def isChatStopCommand (text : String) : Bool :=
  let trimmed := jsTrim text
  if trimmed = "" then false
  else
    let normalized := jsToLower trimmed
    normalized = "/stop" || normalized = "stop" || normalized = "esc" ||
      normalized = "abort" || normalized = "wait" || normalized = "exit"

/-- `isChatResetCommand`. -/
def isChatResetCommand (text : String) : Bool :=
  let trimmed := jsTrim text
  if trimmed = "" then false
  else
    let normalized := jsToLower trimmed
    normalized = "/new" || normalized = "/reset" ||
      jsStartsWith normalized "/new " || jsStartsWith normalized "/reset "

/-- `enqueueChatMessage`; `queueId` and `now` stand for `generateUUID()` and
`Date.now()`. -/
def enqueueChatMessage (queueId : String) (now : Int) (host : ChatState) (text : String)
    (attachments : Option (List ChatAttachment)) (refreshSessions : Bool) : ChatState :=
  let trimmed := jsTrim text
  let hasAttachments : Bool := match attachments with
    | some l => decide (l.length > 0)
    | none => false
  if trimmed = "" ∧ ¬ hasAttachments then host
  else
    { host with
      chatQueue := host.chatQueue ++
        [{ id := queueId, text := trimmed, createdAt := now
           attachments := if hasAttachments then attachments else none
           refreshSessions := refreshSessions }] }

/-- Options of `sendChatMessageNow`. -/
structure SendNowOpts where
  previousDraft : Option String := none
  restoreDraft : Bool := false
  attachments : Option (List ChatAttachment) := none
  previousAttachments : Option (List ChatAttachment) := none
  restoreAttachments : Bool := false
  refreshSessions : Bool := false

/-- Result of `sendChatMessageNow`/`flushChatQueue`: the boolean result (for
`flushChatQueue`, of its inner send; unused by its callers), the host state,
the persisted store, issued requests, warning count, and the send
environments not yet consumed. -/
structure HostOutcome where
  ok : Bool
  host : ChatState
  storage : Option StoredChatStateStore
  calls : List GatewayCall
  warnings : Nat
  envs : List SendEnv

/-- `Set.prototype.add` on a set modelled as a duplicate-free list. -/
def insertIfAbsent (l : List String) (x : String) : List String :=
  if x ∈ l then l else l ++ [x]

mutual

/-- `sendChatMessageNow`.  `fuel` bounds the nested queue-flush recursion
(which is bounded by the queue length in the source); `envs` supplies one
`SendEnv` per inner `sendChatMessage` call.  The external `resetToolStream`,
`setLastActiveSessionKey` and `scheduleChatScroll` calls touch no modelled
field.  The un-awaited `void flushChatQueue(host)` is modelled as running to
completion at its call point. -/
def sendChatMessageNow (fuel : Nat) (envs : List SendEnv) (host : ChatState)
    (storage : Option StoredChatStateStore) (message : String) (opts : SendNowOpts) :
    HostOutcome :=
  match fuel with
  | 0 => ⟨false, host, storage, [], 0, envs⟩
  | fuel + 1 =>
    let env := envs.headD {}
    let envs' := envs.tail
    let s := sendChatMessage env host storage message opts.attachments
    let ok := jsTruthy s.runId
    let host1 := s.state
    let host2 :=
      if ¬ ok ∧ opts.previousDraft.isSome then
        { host1 with chatMessage := opts.previousDraft.getD "" }
      else host1
    let host3 :=
      if ¬ ok ∧ opts.previousAttachments.isSome then
        { host2 with chatAttachments := opts.previousAttachments.getD [] }
      else host2
    let host4 :=
      if ok ∧ opts.restoreDraft ∧ jsTrim (opts.previousDraft.getD "") ≠ "" then
        { host3 with chatMessage := opts.previousDraft.getD "" }
      else host3
    let host5 :=
      if ok ∧ opts.restoreAttachments ∧ (opts.previousAttachments.getD []).length > 0 then
        { host4 with chatAttachments := opts.previousAttachments.getD [] }
      else host4
    let storage2 := syncChatComposerLocalState host5 s.storage
    let afterFlush : HostOutcome :=
      if ok ∧ ¬ jsTruthy host5.chatRunId then flushChatQueue fuel envs' host5 storage2
      else ⟨ok, host5, storage2, [], 0, envs'⟩
    let host6 :=
      if ok ∧ opts.refreshSessions ∧ jsTruthy s.runId then
        { afterFlush.host with
          refreshSessionsAfterChat :=
            insertIfAbsent afterFlush.host.refreshSessionsAfterChat (s.runId.getD "") }
      else afterFlush.host
    ⟨ok, host6, afterFlush.storage, s.calls ++ afterFlush.calls,
      s.warnings + afterFlush.warnings, afterFlush.envs⟩

/-- `flushChatQueue`. -/
def flushChatQueue (fuel : Nat) (envs : List SendEnv) (host : ChatState)
    (storage : Option StoredChatStateStore) : HostOutcome :=
  match fuel with
  | 0 => ⟨false, host, storage, [], 0, envs⟩
  | fuel + 1 =>
    if ¬ host.connected ∨ isChatBusy host then ⟨false, host, storage, [], 0, envs⟩
    else
      match host.chatQueue with
      | [] => ⟨false, host, storage, [], 0, envs⟩
      | next :: rest =>
        let host1 := { host with chatQueue := rest }
        let r := sendChatMessageNow fuel envs host1 storage next.text
          { attachments := next.attachments, refreshSessions := next.refreshSessions }
        if ¬ r.ok then
          ⟨r.ok, { r.host with chatQueue := next :: r.host.chatQueue }, r.storage, r.calls,
            r.warnings, r.envs⟩
        else r

end

/-- `flushChatQueueForEvent`, the alias invoked by the push-event plumbing
after a run completes. -/
def flushChatQueueForEvent (fuel : Nat) (envs : List SendEnv) (host : ChatState)
    (storage : Option StoredChatStateStore) : HostOutcome :=
  flushChatQueue fuel envs host storage

/-- `handleAbortChat`. -/
def handleAbortChat (abortResult : Except String Unit) (host : ChatState)
    (storage : Option StoredChatStateStore) :
    ChatState × Option StoredChatStateStore × List GatewayCall :=
  if ¬ host.connected then (host, storage, [])
  else
    let host1 := { host with chatMessage := "" }
    let storage1 := syncChatComposerLocalState host1 storage
    let r := abortChatRun abortResult host1
    (r.2.1, storage1, r.2.2)

/-- Environment for one `handleSendChat` call. -/
structure HandleSendEnv where
  queueId : String := ""
  queueNow : Int := 0
  abortResult : Except String Unit := .ok ()
  sendEnvs : List SendEnv := []

/-- `handleSendChat`. -/
def handleSendChat (fuel : Nat) (env : HandleSendEnv) (host : ChatState)
    (storage : Option StoredChatStateStore) (messageOverride : Option String)
    (restoreDraft : Bool) : HostOutcome :=
  if ¬ host.connected then ⟨false, host, storage, [], 0, env.sendEnvs⟩
  else
    let previousDraft := host.chatMessage
    let message := jsTrim (messageOverride.getD host.chatMessage)
    let attachments := host.chatAttachments
    let attachmentsToSend := if messageOverride.isNone then attachments else []
    let hasAttachments := attachmentsToSend.length > 0
    if message = "" ∧ ¬ hasAttachments then ⟨false, host, storage, [], 0, env.sendEnvs⟩
    else if isChatStopCommand message then
      let r := handleAbortChat env.abortResult host storage
      ⟨false, r.1, r.2.1, r.2.2, 0, env.sendEnvs⟩
    else
      let refreshSessions := isChatResetCommand message
      let cleared :=
        if messageOverride.isNone then
          let h := { host with chatMessage := "", chatAttachments := [] }
          (h, syncChatComposerLocalState h storage)
        else (host, storage)
      let host1 := cleared.1
      let storage1 := cleared.2
      if isChatBusy host1 then
        ⟨false,
          enqueueChatMessage env.queueId env.queueNow host1 message (some attachmentsToSend)
            refreshSessions,
          storage1, [], 0, env.sendEnvs⟩
      else
        sendChatMessageNow fuel env.sendEnvs host1 storage1 message
          { previousDraft := if messageOverride.isNone then some previousDraft else none
            restoreDraft := jsTruthy messageOverride ∧ restoreDraft
            attachments := if hasAttachments then some attachmentsToSend else none
            previousAttachments := if messageOverride.isNone then some attachments else none
            restoreAttachments := jsTruthy messageOverride ∧ restoreDraft
            refreshSessions := refreshSessions }

/-! ## The "no empty entry" store invariant (spec §3 / §8) -/

/-- The persisted map carries no empty entry (an entry whose draft is empty or
absent, whose attachment list is empty or absent, and whose voice-note list is
empty or absent — `entryEmpty`). -/
def storeWithoutEmptyEntries : Option StoredChatStateStore → Bool
  | none => true
  | some store => store.sessions.all fun kv => !entryEmpty kv.2

/-- One cache mutation routed through `updateLocalSessionState`: the three
update paths of the controller, each with the controller state it was invoked
on and its arguments. -/
inductive CacheOp
  | sync (state : ChatState)
  | append (state : ChatState) (attachment : ChatAttachment) (timestamp : Int)
  | patch (state : ChatState) (attachmentId persistedNoteId : String)

/-- The effect of one cache mutation on the persisted store. -/
def applyCacheOp (storage : Option StoredChatStateStore) : CacheOp →
    Option StoredChatStateStore
  | .sync state => syncChatComposerLocalState state storage
  | .append state attachment timestamp =>
    (appendLocalVoiceNoteMessage state storage attachment timestamp).2
  | .patch state attachmentId persistedNoteId =>
    (updateLocalVoiceNotePersistence state storage attachmentId persistedNoteId).2

/-- A sequence of cache mutations, oldest first. -/
def runCacheOps (storage : Option StoredChatStateStore) (ops : List CacheOp) :
    Option StoredChatStateStore :=
  ops.foldl applyCacheOp storage

/-- Side condition of the amended C1: a persistence patch must target a
session key that is already present in the persisted map (or be a no-op on a
blank key); the other two operations are unconditional. -/
def stepOK (storage : Option StoredChatStateStore) : CacheOp → Bool
  | .patch state _ _ =>
    jsTrim state.sessionKey = "" ||
      (match storage with
       | some store => (lookupEntry store.sessions state.sessionKey).isSome
       | none => false)
  | _ => true

/-! ## Lemmas about the history merge -/

theorem markerIds_append (l₁ l₂ : List MsgVal) :
    markerIds (l₁ ++ l₂) = markerIds l₁ ++ markerIds l₂ := by
  simp [markerIds]

theorem mem_markerIds_mergeGo (seen : List String) (merged : List MsgVal)
    (l : List MsgVal) (x : String) (hx : x ∈ markerIds merged) :
    x ∈ markerIds (mergeGo seen merged l) := by
  induction l generalizing seen merged with
  | nil => simpa [mergeGo] using hx
  | cons m rest ih =>
    rw [mergeGo]
    cases hm : getLocalVoiceNoteMarkerId m with
    | none => exact ih seen merged hx
    | some mid =>
      by_cases hseen : mid ∈ seen
      · simp only [hseen, if_true]
        exact ih seen merged hx
      · simp only [hseen, if_false]
        refine ih (seen ++ [mid]) (merged ++ [m]) ?_
        rw [markerIds_append]
        exact List.mem_append_left _ hx

theorem marker_mem_mergeGo (seen : List String) (merged : List MsgVal) (l : List MsgVal)
    (hseen : ∀ x ∈ seen, x ∈ markerIds merged) :
    ∀ m ∈ l, ∀ mid, getLocalVoiceNoteMarkerId m = some mid →
      mid ∈ markerIds (mergeGo seen merged l) := by
  induction l generalizing seen merged with
  | nil => intro m hm; exact absurd hm (List.not_mem_nil m)
  | cons m₀ rest ih =>
    intro m hm mid hmid
    rw [mergeGo]
    cases hm₀ : getLocalVoiceNoteMarkerId m₀ with
    | none =>
      rcases List.mem_cons.mp hm with rfl | hm
      · exact absurd (hm₀.symm.trans hmid) (by simp)
      · exact ih seen merged hseen m hm mid hmid
    | some mid₀ =>
      by_cases hseen₀ : mid₀ ∈ seen
      · simp only [hseen₀, if_true]
        rcases List.mem_cons.mp hm with rfl | hm
        · have : mid = mid₀ := by rw [hmid] at hm₀; exact Option.some_injective _ hm₀
          subst this
          exact mem_markerIds_mergeGo seen merged rest mid (hseen mid hseen₀)
        · exact ih seen merged hseen m hm mid hmid
      · simp only [hseen₀, if_false]
        have hseen' : ∀ x ∈ seen ++ [mid₀], x ∈ markerIds (merged ++ [m₀]) := by
          intro x hx
          rw [markerIds_append]
          rcases List.mem_append.mp hx with hx | hx
          · exact List.mem_append_left _ (hseen x hx)
          · have : x = mid₀ := List.mem_singleton.mp hx
            subst this
            refine List.mem_append_right _ ?_
            simp [markerIds, hm₀]
        rcases List.mem_cons.mp hm with rfl | hm
        · have : mid = mid₀ := by rw [hmid] at hm₀; exact Option.some_injective _ hm₀
          subst this
          refine mem_markerIds_mergeGo _ _ rest mid ?_
          rw [markerIds_append]
          refine List.mem_append_right _ ?_
          simp [markerIds, hm₀]
        · exact ih (seen ++ [mid₀]) (merged ++ [m₀]) hseen' m hm mid hmid

theorem mergeGo_of_all_seen (seen : List String) (merged : List MsgVal) (l : List MsgVal)
    (h : ∀ m ∈ l, ∀ mid, getLocalVoiceNoteMarkerId m = some mid → mid ∈ seen) :
    mergeGo seen merged l = merged := by
  induction l with
  | nil => rfl
  | cons m rest ih =>
    rw [mergeGo]
    cases hm : getLocalVoiceNoteMarkerId m with
    | none => exact ih fun m' hm' mid hmid => h m' (List.mem_cons_of_mem _ hm') mid hmid
    | some mid =>
      have : mid ∈ seen := h m (List.mem_cons_self _ _) mid hm
      simp only [this, if_true]
      exact ih fun m' hm' mid' hmid' => h m' (List.mem_cons_of_mem _ hm') mid' hmid'

/-- C3: History merge is idempotent: for every remote history `R` and every
local voice-note message list `L`, `merge (merge R L) L = merge R L`, where
`merge` appends to `R` each local message whose marker id is not already
carried by a message of `R`. -/
theorem mergeLocalVoiceNoteMessages_idempotent (R L : List MsgVal) :
    mergeLocalVoiceNoteMessages (mergeLocalVoiceNoteMessages R L) L =
      mergeLocalVoiceNoteMessages R L := by
  by_cases hL : L.isEmpty
  · simp [mergeLocalVoiceNoteMessages, hL]
  · have hunfold : mergeLocalVoiceNoteMessages R L = mergeGo (markerIds R) R L := by
      simp [mergeLocalVoiceNoteMessages, hL]
    have key : ∀ m ∈ L, ∀ mid, getLocalVoiceNoteMarkerId m = some mid →
        mid ∈ markerIds (mergeLocalVoiceNoteMessages R L) := by
      rw [hunfold]
      exact marker_mem_mergeGo (markerIds R) R L fun x hx => hx
    calc mergeLocalVoiceNoteMessages (mergeLocalVoiceNoteMessages R L) L
        = mergeGo (markerIds (mergeLocalVoiceNoteMessages R L))
            (mergeLocalVoiceNoteMessages R L) L := by
          simp [mergeLocalVoiceNoteMessages, hL]
      _ = mergeLocalVoiceNoteMessages R L := mergeGo_of_all_seen _ _ _ key

/-! ## Run state machine: delta guard, run correlation, aborted handling -/

/-- C4: On a delta event for the own run in the current session, the extracted
display text replaces the stream buffer if and only if the buffer is
empty/null or the new text's length is at least the buffer's length;
otherwise the buffer is unchanged. -/
theorem handleChatEvent_delta_monotonic (extract : Option MsgVal → Option String)
    (now : Int) (state : ChatState) (payload : ChatEventPayload) (rid next : String)
    (hsess : payload.sessionKey = state.sessionKey)
    (hstate : payload.state = .delta)
    (hrun : state.chatRunId = some rid)
    (hpay : payload.runId = rid)
    (hext : extract payload.message = some next) :
    handleChatEvent extract now state (some payload) =
      (if state.chatStream.getD "" = "" ∨ next.length ≥ (state.chatStream.getD "").length
       then { state with chatStream := some next } else state, some "delta") := by
  have hguard : foreignRunGuard payload state = false := by
    simp [foreignRunGuard, hrun, hpay]
  simp [handleChatEvent, hsess, hguard, hstate, hext]

/-- Witness for C4: buffer `"Hello"` with incoming delta `"He"` stays
`"Hello"`; with incoming delta `"Hello world"` it updates. -/
theorem handleChatEvent_delta_monotonic_witness :
    (handleChatEvent (fun _ => some "He") 0
        { hasClient := true, connected := true, sessionKey := "main",
          chatRunId := some "r1", chatStream := some "Hello" }
        (some { runId := "r1", sessionKey := "main", state := .delta })).1.chatStream =
      some "Hello" ∧
    (handleChatEvent (fun _ => some "Hello world") 0
        { hasClient := true, connected := true, sessionKey := "main",
          chatRunId := some "r1", chatStream := some "Hello" }
        (some { runId := "r1", sessionKey := "main", state := .delta })).1.chatStream =
      some "Hello world" := by
  constructor
  · rw [handleChatEvent_delta_monotonic (fun _ => some "He") 0 _ _ "r1" "He" rfl rfl rfl rfl rfl]
    decide
  · rw [handleChatEvent_delta_monotonic (fun _ => some "Hello world") 0 _ _ "r1" "Hello world"
      rfl rfl rfl rfl rfl]
    decide

/-- C5: A final event for a foreign run (both run ids non-empty and
different, same session) returns `"final"` while leaving the whole state —
in particular `chatRunId`, `chatStream`, `chatStreamStartedAt`,
`chatMessages` and `lastError` — unchanged; a final event for the own run
always clears `chatStream`, `chatRunId` and `chatStreamStartedAt`. -/
theorem handleChatEvent_final_correlation (extract : Option MsgVal → Option String)
    (now : Int) (state : ChatState) (payload : ChatEventPayload) (rid : String)
    (hsess : payload.sessionKey = state.sessionKey)
    (hstate : payload.state = .final)
    (hrun : state.chatRunId = some rid)
    (hrid : rid ≠ "") :
    (payload.runId ≠ "" → payload.runId ≠ rid →
      handleChatEvent extract now state (some payload) = (state, some "final")) ∧
    (payload.runId = rid →
      handleChatEvent extract now state (some payload) =
        ({ state with chatStream := none, chatRunId := none, chatStreamStartedAt := none },
          some "final")) := by
  constructor
  · intro hne hdiff
    have hguard : foreignRunGuard payload state = true := by
      simp [foreignRunGuard, hrun, hrid, hne, hdiff]
    simp [handleChatEvent, hsess, hguard, hstate]
  · intro hpay
    have hguard : foreignRunGuard payload state = false := by
      simp [foreignRunGuard, hrun, hpay]
    simp [handleChatEvent, hsess, hguard, hstate]

/-- Witness for C5 at a concrete foreign-run final and a concrete own-run
final. -/
theorem handleChatEvent_final_correlation_witness :
    (handleChatEvent (fun _ => none) 0
        { hasClient := true, connected := true, sessionKey := "main",
          chatRunId := some "run-user", chatStream := some "Working...",
          chatStreamStartedAt := some 123 }
        (some { runId := "run-announce", sessionKey := "main", state := .final })) =
      ({ hasClient := true, connected := true, sessionKey := "main",
         chatRunId := some "run-user", chatStream := some "Working...",
         chatStreamStartedAt := some 123 }, some "final") ∧
    (handleChatEvent (fun _ => none) 0
        { hasClient := true, connected := true, sessionKey := "main",
          chatRunId := some "run-user", chatStream := some "Working...",
          chatStreamStartedAt := some 123 }
        (some { runId := "run-user", sessionKey := "main", state := .final })) =
      ({ hasClient := true, connected := true, sessionKey := "main",
         chatRunId := none, chatStream := none, chatStreamStartedAt := none }, some "final") := by
  constructor
  · exact (handleChatEvent_final_correlation (fun _ => none) 0 _ _ "run-user" rfl rfl rfl
      (by decide)).1 (by decide) (by decide)
  · exact (handleChatEvent_final_correlation (fun _ => none) 0 _ _ "run-user" rfl rfl rfl
      (by decide)).2 rfl

/-- C6: On an aborted event for the own run: a well-formed assistant message
(role `assistant`, array `content`) is appended verbatim; otherwise a
non-whitespace stream buffer is appended as a synthesized assistant message;
otherwise nothing is appended; in every case `chatStream`, `chatRunId` and
`chatStreamStartedAt` are cleared to null. -/
theorem handleChatEvent_aborted_own_run (extract : Option MsgVal → Option String)
    (now : Int) (state : ChatState) (payload : ChatEventPayload) (rid : String)
    (hsess : payload.sessionKey = state.sessionKey)
    (hstate : payload.state = .aborted)
    (hrun : state.chatRunId = some rid)
    (hpay : payload.runId = rid) :
    (∀ m, payload.message = some (MsgVal.obj m) → m.role = some "assistant" →
      m.content.isSome = true →
      handleChatEvent extract now state (some payload) =
        ({ state with
           chatMessages := state.chatMessages ++ [MsgVal.obj m]
           chatStream := none, chatRunId := none, chatStreamStartedAt := none },
          some "aborted")) ∧
    (normalizeAbortedAssistantMessage payload.message = none →
      jsTrim (state.chatStream.getD "") ≠ "" →
      handleChatEvent extract now state (some payload) =
        ({ state with
           chatMessages := state.chatMessages ++
             [MsgVal.obj
               { role := some "assistant"
                 content :=
                   some [.blk { type := "text", text := some (state.chatStream.getD "") }]
                 timestamp := some now }]
           chatStream := none, chatRunId := none, chatStreamStartedAt := none },
          some "aborted")) ∧
    (normalizeAbortedAssistantMessage payload.message = none →
      jsTrim (state.chatStream.getD "") = "" →
      handleChatEvent extract now state (some payload) =
        ({ state with chatStream := none, chatRunId := none, chatStreamStartedAt := none },
          some "aborted")) := by
  have hguard : foreignRunGuard payload state = false := by
    simp [foreignRunGuard, hrun, hpay]
  refine ⟨?_, ?_, ?_⟩
  · intro m hmsg hrole hcontent
    obtain ⟨c, hc⟩ := Option.isSome_iff_exists.mp hcontent
    have hnorm : normalizeAbortedAssistantMessage payload.message = some m := by
      rw [hmsg]
      simp [normalizeAbortedAssistantMessage, hrole, hc]
    simp [handleChatEvent, hsess, hguard, hstate, hnorm]
  · intro hnorm hstream
    simp [handleChatEvent, hsess, hguard, hstate, hnorm, hstream]
  · intro hnorm hstream
    simp [handleChatEvent, hsess, hguard, hstate, hnorm, hstream]

/-- Witness for C6: a well-formed partial assistant message is appended
verbatim and the run state is cleared. -/
theorem handleChatEvent_aborted_own_run_witness :
    handleChatEvent (fun _ => none) 7
        { hasClient := true, connected := true, sessionKey := "main",
          chatRunId := some "run-1", chatStream := some "Partial reply",
          chatStreamStartedAt := some 100 }
        (some { runId := "run-1", sessionKey := "main", state := .aborted
                message := some (MsgVal.obj
                  { role := some "assistant"
                    content := some [.blk { type := "text", text := some "Partial reply" }]
                    timestamp := some 2 }) }) =
      ({ hasClient := true, connected := true, sessionKey := "main",
         chatRunId := none, chatStream := none, chatStreamStartedAt := none
         chatMessages :=
           [MsgVal.obj
             { role := some "assistant"
               content := some [.blk { type := "text", text := some "Partial reply" }]
               timestamp := some 2 }] }, some "aborted") := by
  exact (handleChatEvent_aborted_own_run (fun _ => none) 7
    { hasClient := true, connected := true, sessionKey := "main",
      chatRunId := some "run-1", chatStream := some "Partial reply",
      chatStreamStartedAt := some 100 }
    { runId := "run-1", sessionKey := "main", state := .aborted
      message := some (MsgVal.obj
        { role := some "assistant"
          content := some [.blk { type := "text", text := some "Partial reply" }]
          timestamp := some 2 }) }
    "run-1" rfl rfl rfl rfl).1 _ rfl rfl rfl

/-! ## Send guards and attachment persistence -/

/-- C10: `sendChatMessage` with a message that trims to the empty string and
an empty or absent attachments list returns null, issues no remote requests,
and leaves every field of the state (and the persisted store) unchanged; the
same holds whenever the client is null or not connected. -/
theorem sendChatMessage_guard_noop (env : SendEnv) (state : ChatState)
    (storage : Option StoredChatStateStore) (message : String)
    (attachments : Option (List ChatAttachment))
    (h : (jsTrim message = "" ∧ attachments.getD [] = []) ∨
         state.hasClient = false ∨ state.connected = false) :
    sendChatMessage env state storage message attachments =
      ⟨none, state, storage, [], 0⟩ := by
  rcases h with ⟨hmsg, hatt⟩ | h | h
  · by_cases hc : state.hasClient = true ∧ state.connected = true
    · simp [sendChatMessage, hc, hmsg, hatt]
    · simp only [sendChatMessage]
      rw [if_pos]
      simpa using hc
  · simp [sendChatMessage, h]
  · simp [sendChatMessage, h]

/-- Witness for C10: a whitespace-only message with no attachments on a
connected state is a strict no-op. -/
theorem sendChatMessage_guard_noop_witness :
    sendChatMessage {} { hasClient := true, connected := true, sessionKey := "main" }
        none "   " none =
      ⟨none, { hasClient := true, connected := true, sessionKey := "main" }, none, [], 0⟩ :=
  sendChatMessage_guard_noop {} _ none "   " none (Or.inl (by decide))

/-- Counterexample to C7 as stated: an attachment whose `persistedNoteId` is
the non-empty string `"note-abc"` does not make `persistVoiceNoteAttachment`
return that id when the client is null/disconnected — it returns null (the
guard `!state.client || !state.connected` runs before the persisted-id
short-circuit). -/
theorem persistVoiceNoteAttachment_counterexample :
    (persistVoiceNoteAttachment (.ok {})
        { hasClient := false, connected := false, sessionKey := "main" } none
        { id := "voice-persisted", dataUrl := "data:audio/ogg;base64,AAAA",
          mimeType := "audio/ogg", persistedNoteId := some "note-abc" }).result =
      Except.ok none ∧
    (persistVoiceNoteAttachment (.ok {})
        { hasClient := false, connected := false, sessionKey := "main" } none
        { id := "voice-persisted", dataUrl := "data:audio/ogg;base64,AAAA",
          mimeType := "audio/ogg", persistedNoteId := some "note-abc" }).result ≠
      Except.ok (some "note-abc") := by
  constructor
  · rfl
  · intro h
    have h' : (Except.ok none : Except String (Option String)) = Except.ok (some "note-abc") := h
    injection h' with h2
    exact Option.noConfusion h2

/-- Amended C7: when the client is set and connected and the attachment's
`persistedNoteId` trims to a non-empty string, `persistVoiceNoteAttachment`
returns that trimmed id, issues zero `voice-notes.save` requests, and changes
nothing; in particular a second persist after a successful first persist (which
stores a trimmed non-empty id) performs no additional durable-save call. -/
theorem persistVoiceNoteAttachment_idempotent (saveResult : Except String VoiceNotesSaveResult)
    (state : ChatState) (storage : Option StoredChatStateStore)
    (attachment : ChatAttachment) (existing : String)
    (hclient : state.hasClient = true) (hconn : state.connected = true)
    (hpid : attachment.persistedNoteId = some existing)
    (hne : jsTrim existing ≠ "") :
    persistVoiceNoteAttachment saveResult state storage attachment =
      ⟨.ok (some (jsTrim existing)), state, storage, attachment, []⟩ := by
  simp [persistVoiceNoteAttachment, hclient, hconn, hpid, hne]

/-- Witness for the amended C7: an already-persisted attachment on a
connected state short-circuits with the existing id and no requests. -/
theorem persistVoiceNoteAttachment_idempotent_witness :
    persistVoiceNoteAttachment (.ok {})
        { hasClient := true, connected := true, sessionKey := "main" } none
        { id := "voice-persisted", dataUrl := "data:audio/ogg;base64,AAAA",
          mimeType := "audio/ogg", persistedNoteId := some "note-abc" } =
      ⟨.ok (some "note-abc"),
        { hasClient := true, connected := true, sessionKey := "main" }, none,
        { id := "voice-persisted", dataUrl := "data:audio/ogg;base64,AAAA",
          mimeType := "audio/ogg", persistedNoteId := some "note-abc" }, []⟩ :=
  persistVoiceNoteAttachment_idempotent (.ok {}) _ none _ "note-abc" rfl rfl rfl (by decide)

/-! ## The empty-entry invariant (C1) -/

theorem mem_setEntry {l : List (String × StoredSessionChatState)} {k : String}
    {v : StoredSessionChatState} {kv : String × StoredSessionChatState}
    (h : kv ∈ setEntry l k v) : kv = (k, v) ∨ kv ∈ l := by
  induction l with
  | nil => simpa [setEntry] using h
  | cons hd tl ih =>
    rw [setEntry] at h
    by_cases hk : hd.1 = k
    · simp only [hk, if_true] at h
      rcases List.mem_cons.mp h with h | h
      · exact Or.inl h
      · exact Or.inr (List.mem_cons_of_mem _ h)
    · simp only [hk, if_false] at h
      rcases List.mem_cons.mp h with h | h
      · exact Or.inr (h ▸ List.mem_cons_self _ _)
      · rcases ih h with h | h
        · exact Or.inl h
        · exact Or.inr (List.mem_cons_of_mem _ h)

theorem mem_eraseEntry {l : List (String × StoredSessionChatState)} {k : String}
    {kv : String × StoredSessionChatState} (h : kv ∈ eraseEntry l k) : kv ∈ l := by
  induction l with
  | nil => simp [eraseEntry] at h
  | cons hd tl ih =>
    rw [eraseEntry] at h
    by_cases hk : hd.1 = k
    · simp only [hk, if_true] at h
      exact List.mem_cons_of_mem _ h
    · simp only [hk, if_false] at h
      rcases List.mem_cons.mp h with h | h
      · exact h ▸ List.mem_cons_self _ _
      · exact List.mem_cons_of_mem _ (ih h)

theorem lookupEntry_mem {l : List (String × StoredSessionChatState)} {k : String}
    {v : StoredSessionChatState} (h : lookupEntry l k = some v) : (k, v) ∈ l := by
  simp only [lookupEntry] at h
  cases hfind : l.find? fun kv => kv.1 = k with
  | none => rw [hfind] at h; simp at h
  | some kv =>
    rw [hfind] at h
    have hmem := List.mem_of_find?_eq_some hfind
    have hp := List.find?_some hfind
    have hk : kv.1 = k := by simpa using hp
    have hv : kv.2 = v := by simpa using h
    cases kv with
    | mk a b =>
      simp only at hk hv
      subst hk
      subst hv
      exact hmem

theorem length_insertByTimestamp (x : StoredLocalVoiceNote) (l : List StoredLocalVoiceNote) :
    (insertByTimestamp x l).length = l.length + 1 := by
  induction l with
  | nil => rfl
  | cons y ys ih =>
    rw [insertByTimestamp]
    by_cases h : x.timestamp < y.timestamp
    · simp [h]
    · simp [h, ih]

theorem length_sortByTimestamp (l : List StoredLocalVoiceNote) :
    (sortByTimestamp l).length = l.length := by
  have key : ∀ (l acc : List StoredLocalVoiceNote),
      (l.foldl (fun acc x => insertByTimestamp x acc) acc).length = acc.length + l.length := by
    intro l
    induction l with
    | nil => intro acc; simp
    | cons x xs ih =>
      intro acc
      rw [List.foldl_cons, ih, length_insertByTimestamp]
      simp only [List.length_cons]
      omega
  simpa [sortByTimestamp] using key l []

theorem storeWithoutEmptyEntries_mem {storage : Option StoredChatStateStore}
    (hinv : storeWithoutEmptyEntries storage = true) {kv : String × StoredSessionChatState}
    (hkv : kv ∈ (storage.getD { version := LOCAL_CHAT_STATE_VERSION, sessions := [] }).sessions) :
    entryEmpty kv.2 = false := by
  cases storage with
  | none => simp at hkv
  | some s =>
    have := List.all_eq_true.mp hinv kv hkv
    simpa using this

theorem storeWithoutEmptyEntries_update (key : String)
    (updater : StoredSessionChatState → Option StoredSessionChatState)
    (storage : Option StoredChatStateStore)
    (hinv : storeWithoutEmptyEntries storage = true)
    (hup : ∀ next,
      updater ((lookupEntry
        (storage.getD { version := LOCAL_CHAT_STATE_VERSION, sessions := [] }).sessions
        key).getD {}) = some next → entryEmpty next = false) :
    storeWithoutEmptyEntries (updateLocalSessionState key updater storage) = true := by
  rw [updateLocalSessionState]
  by_cases hkey : jsTrim key = ""
  · simpa [hkey] using hinv
  · simp only [hkey, if_false]
    cases hu : updater ((lookupEntry
        (storage.getD { version := LOCAL_CHAT_STATE_VERSION, sessions := [] }).sessions
        key).getD {}) with
    | none =>
      simp only [storeWithoutEmptyEntries]
      rw [List.all_eq_true]
      intro kv hkv
      have := storeWithoutEmptyEntries_mem hinv (mem_eraseEntry hkv)
      simp [this]
    | some next =>
      have hne : entryEmpty next = false := hup next hu
      simp only [storeWithoutEmptyEntries]
      rw [List.all_eq_true]
      intro kv hkv
      rcases mem_setEntry hkv with h | h
      · subst h; simp [hne]
      · have := storeWithoutEmptyEntries_mem hinv h
        simp [this]

theorem syncComposerUpdater_some {draft : String} {atts : List StoredChatAttachment}
    {current next : StoredSessionChatState}
    (h : syncComposerUpdater draft atts current = some next) : entryEmpty next = false := by
  simp only [syncComposerUpdater] at h
  by_cases he : entryEmpty
      { current with
        draft := if draft ≠ "" then some draft else none
        attachments := if atts.length > 0 then some atts else none } = true
  · rw [if_pos he] at h
    exact absurd h (by simp)
  · rw [if_neg (by simpa using he)] at h
    have := Option.some.inj h
    subst this
    simpa using he

theorem hasVoiceNotes_some {e : StoredSessionChatState} {l : List StoredLocalVoiceNote}
    (he : e.voiceNotes = some l) (hl : 0 < l.length) : hasVoiceNotes e = true := by
  simp [hasVoiceNotes, he, hl]

theorem entryEmpty_false_of_hasVoiceNotes {e : StoredSessionChatState}
    (h : hasVoiceNotes e = true) : entryEmpty e = false := by
  simp [entryEmpty, h]

theorem appendVoiceNoteUpdater_some {attachmentId : String} {timestamp : Int}
    {sa : StoredChatAttachment} {current next : StoredSessionChatState}
    (h : appendVoiceNoteUpdater attachmentId timestamp sa current = some next) :
    entryEmpty next = false := by
  simp only [appendVoiceNoteUpdater, Option.some.injEq] at h
  subst h
  refine entryEmpty_false_of_hasVoiceNotes (hasVoiceNotes_some rfl ?_)
  rw [takeRight, List.length_drop, length_sortByTimestamp, List.length_append]
  simp only [LOCAL_CHAT_VOICE_NOTES_LIMIT, List.length_cons, List.length_nil]
  omega

theorem entryEmpty_patchPersistenceUpdater (attachmentId persistedNoteId : String)
    (e next : StoredSessionChatState)
    (h : patchPersistenceUpdater attachmentId persistedNoteId e = some next) :
    entryEmpty next = entryEmpty e := by
  simp only [patchPersistenceUpdater, Option.some.injEq] at h
  subst h
  cases hatt : e.attachments <;> cases hvn : e.voiceNotes <;>
    simp [entryEmpty, hasDraft, hasAttachments, hasVoiceNotes, hatt, hvn]

theorem applyCacheOp_preserves (storage : Option StoredChatStateStore) (op : CacheOp)
    (hinv : storeWithoutEmptyEntries storage = true)
    (hok : stepOK storage op = true) :
    storeWithoutEmptyEntries (applyCacheOp storage op) = true := by
  cases op with
  | sync state =>
    simp only [applyCacheOp, syncChatComposerLocalState]
    exact storeWithoutEmptyEntries_update _ _ _ hinv fun next hu =>
      syncComposerUpdater_some hu
  | append state attachment timestamp =>
    simp only [applyCacheOp, appendLocalVoiceNoteMessage]
    cases hs : toStoredChatAttachment attachment with
    | none => simpa [hs] using hinv
    | some sa =>
      simp only [hs]
      exact storeWithoutEmptyEntries_update _ _ _ hinv fun next hu =>
        appendVoiceNoteUpdater_some hu
  | patch state attachmentId persistedNoteId =>
    simp only [applyCacheOp, updateLocalVoiceNotePersistence]
    by_cases hkey : jsTrim state.sessionKey = ""
    · simpa [updateLocalSessionState, hkey] using hinv
    · have hsome : (lookupEntry
          (storage.getD { version := LOCAL_CHAT_STATE_VERSION, sessions := [] }).sessions
          state.sessionKey).isSome = true := by
        simp only [stepOK, hkey, Bool.false_or] at hok
        cases storage with
        | none => simp at hok
        | some s => simpa using hok
      obtain ⟨e, he⟩ := Option.isSome_iff_exists.mp hsome
      refine storeWithoutEmptyEntries_update _ _ _ hinv ?_
      intro next hu
      rw [he] at hu
      simp only [Option.getD_some] at hu
      rw [entryEmpty_patchPersistenceUpdater _ _ _ _ hu]
      exact storeWithoutEmptyEntries_mem hinv (lookupEntry_mem he)

/-- Counterexample to C1 as stated: a single `updateLocalVoiceNotePersistence`
call for a session key that has no entry in the persisted map (here, on an
empty store) persists an entry whose draft, attachments and voice notes are
all absent — an empty entry. -/
theorem updateLocalVoiceNotePersistence_empty_entry_counterexample :
    storeWithoutEmptyEntries
      (runCacheOps none
        [CacheOp.patch { hasClient := true, connected := true, sessionKey := "main" }
          "a" "note-1"]) = false ∧
    runCacheOps none
      [CacheOp.patch { hasClient := true, connected := true, sessionKey := "main" }
        "a" "note-1"] =
      some { version := 1, sessions := [("main", {})] } := by
  constructor
  · decide
  · decide

/-- Amended C1: starting from a persisted store with no empty entry, any
sequence of cache mutations through the controller's update path preserves
"no empty entry", provided every `updateLocalVoiceNotePersistence` step
targets a session key already present in the persisted map (or a blank key,
which is a no-op); `syncChatComposerLocalState` and
`appendLocalVoiceNoteMessage` steps are unconditional. -/
theorem cacheOps_preserve_no_empty_entries (ops : List CacheOp)
    (storage : Option StoredChatStateStore)
    (hinv : storeWithoutEmptyEntries storage = true)
    (hok : ∀ i (h : i < ops.length),
      stepOK (runCacheOps storage (ops.take i)) (ops.get ⟨i, h⟩) = true) :
    storeWithoutEmptyEntries (runCacheOps storage ops) = true := by
  induction ops generalizing storage with
  | nil => exact hinv
  | cons op rest ih =>
    have h0 : stepOK storage op = true := by
      have := hok 0 (by simp)
      simpa [runCacheOps] using this
    have hstep := applyCacheOp_preserves storage op hinv h0
    have hrest : ∀ i (h : i < rest.length),
        stepOK (runCacheOps (applyCacheOp storage op) (rest.take i))
          (rest.get ⟨i, h⟩) = true := by
      intro i h
      have := hok (i + 1) (by simpa using Nat.succ_lt_succ h)
      simpa [runCacheOps, List.take_succ_cons] using this
    have hfold : runCacheOps storage (op :: rest) =
        runCacheOps (applyCacheOp storage op) rest := by
      simp [runCacheOps]
    rw [hfold]
    exact ih (applyCacheOp storage op) hstep hrest

/-- Witness for the amended C1: a concrete draft-sync, voice-note-append and
persistence-patch sequence (the patch targeting the key the append created)
keeps the persisted map free of empty entries. -/
theorem cacheOps_preserve_no_empty_entries_witness :
    storeWithoutEmptyEntries
      (runCacheOps none
        [CacheOp.sync
          { hasClient := true, connected := true, sessionKey := "main", chatMessage := "draft" },
         CacheOp.append { hasClient := true, connected := true, sessionKey := "main" }
          { id := "v1", dataUrl := "data:audio/ogg;base64,AA", mimeType := "audio/ogg" } 5,
         CacheOp.patch { hasClient := true, connected := true, sessionKey := "main" }
          "v1" "note-9"]) = true := by
  exact cacheOps_preserve_no_empty_entries _ none (by decide) (by decide)

/-! ## Text-only sends: two evaluation lemmas shared by the claims below -/

theorem dropWhile_head_false {α : Type} {p : α → Bool} {l : List α} {a : α} {t : List α}
    (h : l.dropWhile p = a :: t) : p a = false := by
  induction l with
  | nil => simp [List.dropWhile] at h
  | cons x xs ih =>
    rw [List.dropWhile_cons] at h
    by_cases hx : p x
    · simp only [hx, if_true] at h
      exact ih h
    · simp only [hx, if_false] at h
      obtain ⟨rfl, -⟩ := List.cons.injEq x xs a t ▸ h
      simpa using hx

theorem jsTrim_idem (s : String) : jsTrim (jsTrim s) = jsTrim s := by
  unfold jsTrim
  rw [List.toList_asString]
  show (List.rdropWhile Char.isWhitespace
      (List.dropWhile Char.isWhitespace
        (List.rdropWhile Char.isWhitespace
          (List.dropWhile Char.isWhitespace s.toList)))).asString =
    (List.rdropWhile Char.isWhitespace (List.dropWhile Char.isWhitespace s.toList)).asString
  congr 1
  obtain ⟨t, ht⟩ := List.rdropWhile_prefix Char.isWhitespace
    (List.dropWhile Char.isWhitespace s.toList)
  have h1 : List.dropWhile Char.isWhitespace
      (List.rdropWhile Char.isWhitespace (List.dropWhile Char.isWhitespace s.toList)) =
      List.rdropWhile Char.isWhitespace (List.dropWhile Char.isWhitespace s.toList) := by
    cases hr : List.rdropWhile Char.isWhitespace (List.dropWhile Char.isWhitespace s.toList) with
    | nil => rfl
    | cons a as =>
      rw [hr] at ht
      have hm : List.dropWhile Char.isWhitespace s.toList = a :: (as ++ t) := by
        rw [← ht]
        simp
      have ha := dropWhile_head_false hm
      rw [List.dropWhile_cons, ha]
      simp
  rw [h1, List.rdropWhile_idempotent]

theorem jsTruthy_some (s : String) : jsTruthy (some s) = decide (s ≠ "") := rfl

theorem jsTruthy_none : jsTruthy none = false := rfl

theorem sendChatMessage_text_ok (e : SendEnv) (host : ChatState)
    (storage : Option StoredChatStateStore) (message : String)
    (hclient : host.hasClient = true) (hconn : host.connected = true)
    (hmsg : jsTrim message ≠ "") (hres : e.sendResult = Except.ok ()) :
    sendChatMessage e host storage message none =
      ⟨some e.runId,
        { host with
          chatMessages := host.chatMessages ++
            [MsgVal.obj
              { role := some "user"
                content := some [.blk { type := "text", text := some (jsTrim message) }]
                timestamp := some e.now }]
          chatSending := false, lastError := none, chatRunId := some e.runId
          chatStream := some "", chatStreamStartedAt := some e.now },
        storage, [GatewayCall.chatSend host.sessionKey (jsTrim message) e.runId none], 0⟩ := by
  simp [sendChatMessage, hclient, hconn, hmsg, hres, buildVoiceNotePromptText,
    String.intercalate]
  rfl

theorem sendChatMessage_text_error (e : SendEnv) (err : String) (host : ChatState)
    (storage : Option StoredChatStateStore) (message : String)
    (hclient : host.hasClient = true) (hconn : host.connected = true)
    (hmsg : jsTrim message ≠ "") (hres : e.sendResult = Except.error err) :
    sendChatMessage e host storage message none =
      ⟨none,
        { host with
          chatMessages := host.chatMessages ++
            [MsgVal.obj
              { role := some "user"
                content := some [.blk { type := "text", text := some (jsTrim message) }]
                timestamp := some e.now },
             MsgVal.obj
              { role := some "assistant"
                content := some [.blk { type := "text", text := some ("Error: " ++ err) }]
                timestamp := some e.errNow }]
          chatSending := false, lastError := some err, chatRunId := none
          chatStream := none, chatStreamStartedAt := none },
        storage, [GatewayCall.chatSend host.sessionKey (jsTrim message) e.runId none], 0⟩ := by
  simp [sendChatMessage, hclient, hconn, hmsg, hres, buildVoiceNotePromptText,
    String.intercalate]
  rfl

/-! ## Transport-failure rollback (C2) -/

/-- Counterexample to C2 as stated: with an empty pre-send history, a send of
`"hi"` whose `chat.send` throws leaves two messages in the in-memory history
(the optimistic user bubble is not removed, and an assistant error bubble is
appended), so the history is not restored to its pre-send value and the
failure is not surfaced only through the last-error string. -/
theorem sendChatMessageNow_failure_keeps_bubble_counterexample :
    (sendChatMessageNow 2
        [{ runId := "run-2", now := 100, errNow := 200, sendResult := .error "boom" }]
        { hasClient := true, connected := true, sessionKey := "main" } none "hi"
        { previousDraft := some "hi", previousAttachments := some [] }).host.chatMessages =
      [MsgVal.obj
         { role := some "user"
           content := some [.blk { type := "text", text := some "hi" }]
           timestamp := some 100 },
       MsgVal.obj
         { role := some "assistant"
           content := some [.blk { type := "text", text := some "Error: boom" }]
           timestamp := some 200 }] ∧
    (sendChatMessageNow 2
        [{ runId := "run-2", now := 100, errNow := 200, sendResult := .error "boom" }]
        { hasClient := true, connected := true, sessionKey := "main" } none "hi"
        { previousDraft := some "hi", previousAttachments := some [] }).host.lastError =
      some "boom" := by
  constructor
  · decide
  · decide

/-- Amended C2: if `chat.send` throws, the draft text and the attachment list
are restored to their pre-send values and the run state (`chatRunId`,
`chatStream`, `chatStreamStartedAt`) is cleared, but the optimistic
user-message bubble is not removed from the in-memory history: it remains,
and an assistant bubble carrying the error text is appended after it; the
failure is surfaced both as the last-error string and as that bubble. -/
theorem sendChatMessageNow_transport_failure (fuel : Nat) (e : SendEnv) (err : String)
    (host : ChatState) (storage : Option StoredChatStateStore)
    (message prevDraft : String) (prevAtts : List ChatAttachment)
    (hclient : host.hasClient = true) (hconn : host.connected = true)
    (hmsg : jsTrim message ≠ "") (hsend : e.sendResult = Except.error err) :
    sendChatMessageNow (fuel + 1) [e] host storage message
      { previousDraft := some prevDraft, previousAttachments := some prevAtts } =
    ⟨false,
      { host with
        chatMessage := prevDraft
        chatAttachments := prevAtts
        chatMessages := host.chatMessages ++
          [MsgVal.obj
             { role := some "user"
               content := some [.blk { type := "text", text := some (jsTrim message) }]
               timestamp := some e.now },
           MsgVal.obj
             { role := some "assistant"
               content := some [.blk { type := "text", text := some ("Error: " ++ err) }]
               timestamp := some e.errNow }]
        chatRunId := none, chatStream := none, chatStreamStartedAt := none
        lastError := some err, chatSending := false },
      syncChatComposerLocalState
        { host with
          chatMessage := prevDraft
          chatAttachments := prevAtts
          chatMessages := host.chatMessages ++
            [MsgVal.obj
               { role := some "user"
                 content := some [.blk { type := "text", text := some (jsTrim message) }]
                 timestamp := some e.now },
             MsgVal.obj
               { role := some "assistant"
                 content := some [.blk { type := "text", text := some ("Error: " ++ err) }]
                 timestamp := some e.errNow }]
          chatRunId := none, chatStream := none, chatStreamStartedAt := none
          lastError := some err, chatSending := false } storage,
      [GatewayCall.chatSend host.sessionKey (jsTrim message) e.runId none], 0, []⟩ := by
  have hsendmsg := sendChatMessage_text_error e err host storage message hclient hconn hmsg hsend
  simp [sendChatMessageNow, hsendmsg, jsTruthy]

/-- Witness for the amended C2: after a failed send the draft is back to its
pre-send value while the user bubble and the error bubble sit in history. -/
theorem sendChatMessageNow_transport_failure_witness :
    jsTrim "hi" ≠ "" ∧
    (sendChatMessageNow 2
        [{ runId := "run-2", now := 100, errNow := 200, sendResult := .error "boom" }]
        { hasClient := true, connected := true, sessionKey := "main" } none "hi"
        { previousDraft := some "old draft", previousAttachments := some [] }).host.chatMessage =
      "old draft" := by
  refine ⟨by decide, ?_⟩
  rw [sendChatMessageNow_transport_failure 1
    { runId := "run-2", now := 100, errNow := 200, sendResult := .error "boom" } "boom"
    { hasClient := true, connected := true, sessionKey := "main" } none "hi" "old draft" []
    rfl rfl (by decide) rfl]

/-! ## Durable-save failure does not block the send (C8) -/

/-- C8: if the `voice-notes.save` request rejects during `sendChatMessage`,
the send still completes: the `chat.send` request is issued after the failed
save and the run id is returned, one console warning is emitted, and the
voice-note content block of the appended in-memory user message carries no
`persistedNoteId`. -/
theorem sendChatMessage_save_rejected_still_sends
    (env : SendEnv) (state : ChatState) (storage : Option StoredChatStateStore)
    (message : String) (att : ChatAttachment) (parsed : String × String) (err : String)
    (hclient : state.hasClient = true) (hconn : state.connected = true)
    (hvoice : isVoiceNoteAttachment att = true)
    (hpid : att.persistedNoteId = none)
    (hparse : dataUrlToBase64 att.dataUrl = some parsed)
    (hlocal : hasLocalVoiceNoteMessage state.chatMessages att.id = false)
    (hsave : env.saveFor att.id = Except.error err)
    (hsend : env.sendResult = Except.ok ()) :
    (sendChatMessage env state storage message (some [att])).runId = some env.runId ∧
    (sendChatMessage env state storage message (some [att])).warnings = 1 ∧
    (sendChatMessage env state storage message (some [att])).calls.map
      GatewayCall.isChatSend = [false, true] ∧
    (sendChatMessage env state storage message (some [att])).state.chatMessages =
      state.chatMessages ++
        [MsgVal.obj
          { role := some "user"
            content := some
              (((if jsTrim message ≠ "" then
                  [({ type := "text", text := some (jsTrim message) } : ContentBlock)]
                 else []) ++
                [buildVoiceNoteContentBlock att none true]).map BlockVal.blk)
            timestamp := some env.now }] ∧
    (buildVoiceNoteContentBlock att none true).persistedNoteId = none := by
  have hknown : jsTrim (att.persistedNoteId.getD "") = "" := by rw [hpid]; rfl
  have hpersist : persistVoiceNoteAttachment (env.saveFor att.id) state storage att =
      ⟨.error err, state, storage, att,
        [GatewayCall.voiceNotesSave state.sessionKey (att.source.getD "upload")
          att.durationMs
          (if normalizeTranscript att ≠ "" then some (normalizeTranscript att) else none)
          (if normalizeTranscript att ≠ "" then
            some (splitTranscriptParts (normalizeTranscript att)) else none)
          (if parsed.1 ≠ "" then parsed.1 else att.mimeType)
          att.fileName parsed.2]⟩ := by
    simp [persistVoiceNoteAttachment, hclient, hconn, hknown, hparse, hsave]
  have hblock : (buildVoiceNoteContentBlock att none true).persistedNoteId = none := by
    simp [buildVoiceNoteContentBlock, hpid]
  refine ⟨?_, ?_, ?_, ?_, hblock⟩ <;>
    simp [sendChatMessage, hclient, hconn, hvoice, hknown, hpersist, hlocal, hsend,
      GatewayCall.isChatSend]

/-- Witness for C8: a rejected durable save of a concrete voice note still
yields a returned run id, one warning, and a `chat.send` following the
failed `voice-notes.save`. -/
theorem sendChatMessage_save_rejected_still_sends_witness :
    (sendChatMessage
        { runId := "run-xyz", now := 100, errNow := 200,
          saveFor := fun _ => .error "persist failed", sendResult := .ok () }
        { hasClient := true, connected := true, sessionKey := "main" } none "Use this note"
        (some [{ id := "voice-2", kind := some "voice-note",
                 dataUrl := "data:audio/ogg;base64,dm9pY2UtMg==", mimeType := "audio/ogg",
                 fileName := some "failed.ogg", source := some "upload",
                 transcript := some "test transcript" }])).runId = some "run-xyz" ∧
    (sendChatMessage
        { runId := "run-xyz", now := 100, errNow := 200,
          saveFor := fun _ => .error "persist failed", sendResult := .ok () }
        { hasClient := true, connected := true, sessionKey := "main" } none "Use this note"
        (some [{ id := "voice-2", kind := some "voice-note",
                 dataUrl := "data:audio/ogg;base64,dm9pY2UtMg==", mimeType := "audio/ogg",
                 fileName := some "failed.ogg", source := some "upload",
                 transcript := some "test transcript" }])).warnings = 1 ∧
    (sendChatMessage
        { runId := "run-xyz", now := 100, errNow := 200,
          saveFor := fun _ => .error "persist failed", sendResult := .ok () }
        { hasClient := true, connected := true, sessionKey := "main" } none "Use this note"
        (some [{ id := "voice-2", kind := some "voice-note",
                 dataUrl := "data:audio/ogg;base64,dm9pY2UtMg==", mimeType := "audio/ogg",
                 fileName := some "failed.ogg", source := some "upload",
                 transcript := some "test transcript" }])).calls.map
      GatewayCall.isChatSend = [false, true] := by
  have h := sendChatMessage_save_rejected_still_sends
    { runId := "run-xyz", now := 100, errNow := 200,
      saveFor := fun _ => .error "persist failed", sendResult := .ok () }
    { hasClient := true, connected := true, sessionKey := "main" } none "Use this note"
    { id := "voice-2", kind := some "voice-note",
      dataUrl := "data:audio/ogg;base64,dm9pY2UtMg==", mimeType := "audio/ogg",
      fileName := some "failed.ogg", source := some "upload",
      transcript := some "test transcript" }
    ("audio/ogg", "dm9pY2UtMg==") "persist failed"
    rfl rfl (by decide) rfl (by decide) rfl rfl rfl
  exact ⟨h.1, h.2.1, h.2.2.1⟩

/-! ## Send-queue discipline (C9) -/

/-- C9: the send-queue discipline.  For a connected host, a sendable
non-stop-command message with no composer attachments: (1) when the
controller is busy (`chatSending` or an active `chatRunId`), `handleSendChat`
appends the message to the queue tail and issues no request; (2) when it is
not busy, it sends immediately — one `chat.send` request, queue untouched;
(3) `flushChatQueue` dequeues the head and sends it, and when that send fails
the item is put back at the head, order preserved; (4) invoked on send/run
completion with the run no longer active, `flushChatQueueForEvent` dequeues
the head and sends it without further user action. -/
theorem send_queue_discipline :
    (∀ (env : HandleSendEnv) (host : ChatState) (storage : Option StoredChatStateStore)
       (fuel : Nat),
       host.connected = true →
       isChatBusy host = true →
       jsTrim host.chatMessage ≠ "" →
       isChatStopCommand (jsTrim host.chatMessage) = false →
       host.chatAttachments = [] →
       handleSendChat fuel env host storage none false =
         ⟨false,
          { host with
            chatMessage := ""
            chatAttachments := []
            chatQueue := host.chatQueue ++
              [{ id := env.queueId, text := jsTrim host.chatMessage, createdAt := env.queueNow
                 attachments := none
                 refreshSessions := isChatResetCommand (jsTrim host.chatMessage) }] },
          syncChatComposerLocalState { host with chatMessage := "", chatAttachments := [] }
            storage,
          [], 0, env.sendEnvs⟩) ∧
    (∀ (env : HandleSendEnv) (host : ChatState) (storage : Option StoredChatStateStore)
       (fuel : Nat) (e : SendEnv),
       host.connected = true → host.hasClient = true →
       isChatBusy host = false →
       jsTrim host.chatMessage ≠ "" →
       isChatStopCommand (jsTrim host.chatMessage) = false →
       host.chatAttachments = [] →
       env.sendEnvs = [e] → e.runId ≠ "" →
       (handleSendChat (fuel + 1) env host storage none false).calls =
         [GatewayCall.chatSend host.sessionKey (jsTrim host.chatMessage) e.runId none] ∧
       (handleSendChat (fuel + 1) env host storage none false).host.chatQueue =
         host.chatQueue) ∧
    (∀ (host : ChatState) (storage : Option StoredChatStateStore) (e : SendEnv)
       (err : String) (fuel : Nat) (next : ChatQueueItem) (rest : List ChatQueueItem),
       host.connected = true → host.hasClient = true →
       isChatBusy host = false →
       host.chatQueue = next :: rest →
       jsTrim next.text ≠ "" →
       next.attachments = none →
       e.sendResult = Except.error err →
       (flushChatQueue (fuel + 2) [e] host storage).host.chatQueue = next :: rest ∧
       (flushChatQueue (fuel + 2) [e] host storage).calls =
         [GatewayCall.chatSend host.sessionKey (jsTrim next.text) e.runId none]) ∧
    (∀ (host : ChatState) (storage : Option StoredChatStateStore) (e : SendEnv)
       (fuel : Nat) (next : ChatQueueItem) (rest : List ChatQueueItem),
       host.connected = true → host.hasClient = true →
       isChatBusy host = false →
       host.chatQueue = next :: rest →
       jsTrim next.text ≠ "" →
       next.attachments = none →
       e.sendResult = Except.ok () → e.runId ≠ "" →
       (flushChatQueueForEvent (fuel + 2) [e] host storage).host.chatQueue = rest ∧
       (flushChatQueueForEvent (fuel + 2) [e] host storage).calls =
         [GatewayCall.chatSend host.sessionKey (jsTrim next.text) e.runId none]) := by
  refine ⟨?_, ?_, ?_, ?_⟩
  · intro env host storage fuel hconn hbusy hmsg hstop hatts
    simp only [isChatBusy] at hbusy
    simp [handleSendChat, isChatBusy, hconn, hbusy, hmsg, hstop, hatts, enqueueChatMessage,
      jsTrim_idem]
  · intro env host storage fuel e hconn hclient hbusy hmsg hstop hatts henvs hrid
    simp only [isChatBusy, Bool.or_eq_false_iff] at hbusy
    obtain ⟨hb1, hb2⟩ := hbusy
    cases hres : e.sendResult with
    | ok u =>
      cases u
      simp [handleSendChat, isChatBusy, hconn, hclient, hb1, hb2, hmsg, hstop, hatts, henvs,
        sendChatMessageNow, sendChatMessage_text_ok, jsTruthy_some, jsTruthy_none, hres, hrid,
        jsTrim_idem]
      split <;> rfl
    | error err =>
      simp [handleSendChat, isChatBusy, hconn, hclient, hb1, hb2, hmsg, hstop, hatts, henvs,
        sendChatMessageNow, sendChatMessage_text_error, jsTruthy_some, jsTruthy_none, hres,
        jsTrim_idem]
  · intro host storage e err fuel next rest hconn hclient hbusy hqueue hmsg hatts hres
    simp only [isChatBusy, Bool.or_eq_false_iff] at hbusy
    obtain ⟨hb1, hb2⟩ := hbusy
    simp [flushChatQueue, isChatBusy, hconn, hclient, hb1, hb2, hqueue, hmsg, hatts,
      sendChatMessageNow, sendChatMessage_text_error, jsTruthy_some, jsTruthy_none, hres]
  · intro host storage e fuel next rest hconn hclient hbusy hqueue hmsg hatts hres hrid
    simp only [isChatBusy, Bool.or_eq_false_iff] at hbusy
    obtain ⟨hb1, hb2⟩ := hbusy
    simp [flushChatQueueForEvent, flushChatQueue, isChatBusy, hconn, hclient, hb1, hb2, hqueue,
      hmsg, hatts, sendChatMessageNow, sendChatMessage_text_ok, jsTruthy_some, jsTruthy_none,
      hres, hrid]
    split <;> rfl

/-- Witness for C9: a busy host enqueues at the tail; an idle host sends
immediately; a failed flush restores the queue head; a successful
post-completion flush dequeues the head. -/
theorem send_queue_discipline_witness :
    (handleSendChat 3 { queueId := "q1", queueNow := 5 }
        { hasClient := true, connected := true, sessionKey := "main",
          chatMessage := "queued msg", chatRunId := some "run-active" }
        none none false).host.chatQueue =
      [{ id := "q1", text := "queued msg", createdAt := 5, attachments := none,
         refreshSessions := false }] ∧
    (handleSendChat 3 { sendEnvs := [{ runId := "run-xyz", now := 100, errNow := 200 }] }
        { hasClient := true, connected := true, sessionKey := "main", chatMessage := "hello" }
        none none false).calls =
      [GatewayCall.chatSend "main" "hello" "run-xyz" none] ∧
    ((flushChatQueue 3
        [{ runId := "run-2", now := 100, errNow := 200, sendResult := .error "boom" }]
        { hasClient := true, connected := true, sessionKey := "main",
          chatQueue := [{ id := "a", text := "first", createdAt := 1 },
                        { id := "b", text := "second", createdAt := 2 }] }
        none).host.chatQueue.map fun q => q.id) = ["a", "b"] ∧
    ((flushChatQueueForEvent 3 [{ runId := "run-xyz", now := 100, errNow := 200 }]
        { hasClient := true, connected := true, sessionKey := "main",
          chatQueue := [{ id := "a", text := "first", createdAt := 1 },
                        { id := "b", text := "second", createdAt := 2 }] }
        none).host.chatQueue.map fun q => q.id) = ["b"] := by
  refine ⟨?_, ?_, ?_, ?_⟩
  · have h := send_queue_discipline.1 { queueId := "q1", queueNow := 5 }
      { hasClient := true, connected := true, sessionKey := "main",
        chatMessage := "queued msg", chatRunId := some "run-active" }
      none 3 rfl (by decide) (by decide) (by decide) rfl
    rw [h]
    decide
  · have h := send_queue_discipline.2.1
      { sendEnvs := [{ runId := "run-xyz", now := 100, errNow := 200 }] }
      { hasClient := true, connected := true, sessionKey := "main", chatMessage := "hello" }
      none 2 { runId := "run-xyz", now := 100, errNow := 200 }
      rfl rfl (by decide) (by decide) (by decide) rfl rfl (by decide)
    exact h.1.trans (by decide)
  · have h := send_queue_discipline.2.2.1
      { hasClient := true, connected := true, sessionKey := "main",
        chatQueue := [{ id := "a", text := "first", createdAt := 1 },
                      { id := "b", text := "second", createdAt := 2 }] }
      none { runId := "run-2", now := 100, errNow := 200, sendResult := .error "boom" }
      "boom" 1 { id := "a", text := "first", createdAt := 1 }
      [{ id := "b", text := "second", createdAt := 2 }]
      rfl rfl (by decide) rfl (by decide) rfl rfl
    have h2 : (flushChatQueue 3
        [{ runId := "run-2", now := 100, errNow := 200, sendResult := .error "boom" }]
        { hasClient := true, connected := true, sessionKey := "main",
          chatQueue := [{ id := "a", text := "first", createdAt := 1 },
                        { id := "b", text := "second", createdAt := 2 }] }
        none).host.chatQueue =
      [{ id := "a", text := "first", createdAt := 1 },
       { id := "b", text := "second", createdAt := 2 }] := h.1
    rw [h2]
    decide
  · have h := send_queue_discipline.2.2.2
      { hasClient := true, connected := true, sessionKey := "main",
        chatQueue := [{ id := "a", text := "first", createdAt := 1 },
                      { id := "b", text := "second", createdAt := 2 }] }
      none { runId := "run-xyz", now := 100, errNow := 200 }
      1 { id := "a", text := "first", createdAt := 1 }
      [{ id := "b", text := "second", createdAt := 2 }]
      rfl rfl (by decide) rfl (by decide) rfl rfl (by decide)
    have h2 : (flushChatQueueForEvent 3 [{ runId := "run-xyz", now := 100, errNow := 200 }]
        { hasClient := true, connected := true, sessionKey := "main",
          chatQueue := [{ id := "a", text := "first", createdAt := 1 },
                        { id := "b", text := "second", createdAt := 2 }] }
        none).host.chatQueue =
      [{ id := "b", text := "second", createdAt := 2 }] := h.1
    rw [h2]
    decide

end OpenclawChat
